import Mathlib

/-!
Shallow embedding of the smart-display data pipeline
(`src/smart-display/hello_mock.py`, `modules/weather.py`,
`modules/air_quality.py`, `modules/location_coordinates.py`).

Python numbers are modelled as `ℚ` (floats/ints), timestamps as `ℤ`
(minutes or seconds since an arbitrary epoch), Python `None` as
`Option`, raised exceptions as `Except PyError`.
-/

/-- Decidable equality of `Except` values, for evaluating the models on
concrete inputs. -/
instance {ε α : Type} [DecidableEq ε] [DecidableEq α] :
    DecidableEq (Except ε α) := fun a b =>
  match a, b with
  | .error e, .error f =>
    if h : e = f then .isTrue (by rw [h]) else .isFalse (by simp [h])
  | .error _, .ok _ => .isFalse (by simp)
  | .ok _, .error _ => .isFalse (by simp)
  | .ok x, .ok y =>
    if h : x = y then .isTrue (by rw [h]) else .isFalse (by simp [h])

/-- Python exceptions raised by the modelled code paths. -/
inductive PyError where
  | valueError : String → PyError
  | nameError : String → PyError
  | indexError : PyError
  | ioError : PyError
  | requestException : PyError
  | jsonDecodeError : PyError
  deriving Repr, DecidableEq

/-- Python 3 `round` on an exact rational: round half to even
(banker's rounding), as used by `round(degrees / 22.5)`. -/
def pyRound (q : ℚ) : ℤ :=
  if q - ⌊q⌋ < 1/2 then ⌊q⌋
  else if (1:ℚ)/2 < q - ⌊q⌋ then ⌊q⌋ + 1
  else if ⌊q⌋ % 2 = 0 then ⌊q⌋ else ⌊q⌋ + 1

/-- Python `a % b` on numbers with `b > 0` (the result carries the sign
of the divisor, for floats and ints alike). -/
def pyMod (a b : ℚ) : ℚ := a - b * ⌊a / b⌋

namespace WeatherAPI

/-- The 16-entry compass table of `WeatherAPI._get_wind_direction`
(hello_mock.py lines 161-162). -/
def directions : List String :=
  ["N", "NNE", "NE", "ENE", "E", "ESE", "SE", "SSE",
   "S", "SSW", "SW", "WSW", "W", "WNW", "NW", "NNW"]

/-- `WeatherAPI._get_wind_direction` (hello_mock.py lines 159-164):
`index = round(degrees / 22.5) % 16; return directions[index]`.
The index is always in `[0, 16)` so the `getD` default is never hit. -/
def get_wind_direction (degrees : ℚ) : String :=
  directions.getD (pyRound (degrees / (45/2)) % 16).toNat ""

/-- The fixed weather-code table of `WeatherAPI._get_weather_condition`
(hello_mock.py lines 139-156). -/
def weather_codes : List (ℤ × String × String) :=
  [(0, "Clear", "SUN"),
   (1, "Mostly Clear", "SUN"),
   (2, "Partly Cloudy", "P.CLD"),
   (3, "Overcast", "CLOUD"),
   (45, "Foggy", "FOG"),
   (48, "Rime Fog", "FOG"),
   (51, "Light Drizzle", "DRZL"),
   (53, "Drizzle", "DRZL"),
   (55, "Heavy Drizzle", "DRZL"),
   (61, "Light Rain", "RAIN"),
   (63, "Rain", "RAIN"),
   (65, "Heavy Rain", "RAIN"),
   (71, "Light Snow", "SNOW"),
   (73, "Snow", "SNOW"),
   (75, "Heavy Snow", "SNOW"),
   (95, "Thunderstorm", "STORM")]

/-- The key set of `weather_codes`. -/
def knownWeatherCodes : List ℤ :=
  [0, 1, 2, 3, 45, 48, 51, 53, 55, 61, 63, 65, 71, 73, 75, 95]

/-- `WeatherAPI._get_weather_condition` (hello_mock.py lines 137-157):
`weather_codes.get(code, ("Unknown", "?"))`. -/
def get_weather_condition (code : ℤ) : String × String :=
  (weather_codes.lookup code).getD ("Unknown", "?")

end WeatherAPI

/-- Auxiliary: `pyMod d 360` is the identity on `[0, 360)`. -/
theorem pyMod_eq_self_of_lt {d : ℚ} (h0 : 0 ≤ d) (h1 : d < 360) :
    pyMod d 360 = d := by
  unfold pyMod
  have hf : ⌊d / 360⌋ = 0 := by
    rw [Int.floor_eq_zero_iff, Set.mem_Ico]
    constructor
    · positivity
    · rw [div_lt_one (by norm_num)]
      exact h1
  rw [hf]
  push_cast
  ring

/-- C6: wind-direction mapping is `round(degrees / 22.5) mod 16` into the
16-label compass table: on `[0, 360)` reducing mod 360 is the identity and
preserves the label; `compass 354 = "N"`; `compass 11 = "N"`;
`compass 360 = compass 0`. -/
theorem claim_C6_wind_direction :
    (∀ d : ℚ, 0 ≤ d → d < 360 →
      WeatherAPI.get_wind_direction d =
        WeatherAPI.get_wind_direction (pyMod d 360)) ∧
    WeatherAPI.get_wind_direction 354 = "N" ∧
    WeatherAPI.get_wind_direction 11 = "N" ∧
    WeatherAPI.get_wind_direction 360 = WeatherAPI.get_wind_direction 0 := by
  refine ⟨?_, ?_, ?_, ?_⟩
  · intro d h0 h1
    rw [pyMod_eq_self_of_lt h0 h1]
  · norm_num [WeatherAPI.get_wind_direction, pyRound, WeatherAPI.directions]
  · norm_num [WeatherAPI.get_wind_direction, pyRound, WeatherAPI.directions]
  · norm_num [WeatherAPI.get_wind_direction, pyRound, WeatherAPI.directions]

/-- Witness for C6: the universally quantified conjunct applied at the
concrete direction 100 degrees. -/
theorem claim_C6_wind_direction_witness :
    WeatherAPI.get_wind_direction 100 =
      WeatherAPI.get_wind_direction (pyMod 100 360) :=
  claim_C6_wind_direction.1 100 (by norm_num) (by norm_num)

/-- C7: the weather-code lookup is total: every code outside the fixed
table maps to the sentinel `("Unknown", "?")`, and code 0 maps to the
clear-sky label `("Clear", "SUN")`. -/
theorem claim_C7_weather_condition_total :
    (∀ code : ℤ, code ∉ WeatherAPI.knownWeatherCodes →
      WeatherAPI.get_weather_condition code = ("Unknown", "?")) ∧
    WeatherAPI.get_weather_condition 0 = ("Clear", "SUN") := by
  constructor
  · intro code hc
    simp only [WeatherAPI.knownWeatherCodes, List.mem_cons,
      List.not_mem_nil, or_false, not_or] at hc
    obtain ⟨h0, h1, h2, h3, h45, h48, h51, h53, h55,
      h61, h63, h65, h71, h73, h75, h95⟩ := hc
    simp [WeatherAPI.get_weather_condition, WeatherAPI.weather_codes,
      List.lookup, beq_eq_false_iff_ne.mpr h0, beq_eq_false_iff_ne.mpr h1,
      beq_eq_false_iff_ne.mpr h2, beq_eq_false_iff_ne.mpr h3,
      beq_eq_false_iff_ne.mpr h45, beq_eq_false_iff_ne.mpr h48,
      beq_eq_false_iff_ne.mpr h51, beq_eq_false_iff_ne.mpr h53,
      beq_eq_false_iff_ne.mpr h55, beq_eq_false_iff_ne.mpr h61,
      beq_eq_false_iff_ne.mpr h63, beq_eq_false_iff_ne.mpr h65,
      beq_eq_false_iff_ne.mpr h71, beq_eq_false_iff_ne.mpr h73,
      beq_eq_false_iff_ne.mpr h75, beq_eq_false_iff_ne.mpr h95]
  · decide

/-- Witness for C7: the unknown-code conjunct applied at code 99. -/
theorem claim_C7_weather_condition_total_witness :
    WeatherAPI.get_weather_condition 99 = ("Unknown", "?") :=
  claim_C7_weather_condition_total.1 99 (by decide)

/-- One raw hourly forecast entry: the parsed timestamp
(`datetime.fromisoformat(datetime_str)`, modelled in minutes since an
epoch) together with the measurement columns read off the parallel
arrays at the same index. -/
structure RawHour where
  time : ℤ
  values : List ℚ
  deriving Repr, DecidableEq

namespace AirQuality

/-- The hourly loop of `format_weather_data` in `modules/air_quality.py`
(lines 112-138): scan the provider `time` array in order; break once the
emitted counter `i` exceeds 3; emit an entry only when its timestamp is
strictly after `current_dt + timedelta(minutes=25)`, incrementing `i`;
otherwise skip it without incrementing `i`. -/
def formatHourly (current_dt : ℤ) : List RawHour → ℕ → List RawHour
  | [], _ => []
  | h :: rest, i =>
    if 3 < i then []
    else if current_dt + 25 < h.time then
      h :: formatHourly current_dt rest (i + 1)
    else
      formatHourly current_dt rest i

/-- The loop is "first `4 - i` entries strictly after `current + 25`,
in provider order": skipped entries do not count against the cap. -/
theorem formatHourly_eq_take_filter (c : ℤ) :
    ∀ (ts : List RawHour) (i : ℕ),
      formatHourly c ts i =
        (ts.filter fun h => decide (c + 25 < h.time)).take (4 - i)
  | [], i => by simp [formatHourly]
  | h :: rest, i => by
    rw [formatHourly]
    by_cases h3 : 3 < i
    · have h4 : 4 - i = 0 := by omega
      simp [h3, h4]
    · rw [if_neg h3]
      by_cases hp : c + 25 < h.time
      · rw [if_pos hp, formatHourly_eq_take_filter c rest (i + 1)]
        have h4 : 4 - i = (4 - (i + 1)) + 1 := by omega
        simp [List.filter_cons, hp, h4]
      · rw [if_neg hp, formatHourly_eq_take_filter c rest i]
        simp [List.filter_cons, hp]

end AirQuality

namespace Weather

/-- The hourly loop of `format_weather_data` in `modules/weather.py`
(lines 119-140): every entry of the provider `time` array is formatted
and appended; the `i = 0` initialized on line 120 is never read and no
timestamp comparison or cap is applied. -/
def formatHourly : List RawHour → List RawHour
  | [] => []
  | h :: rest => h :: formatHourly rest

theorem formatHourly_eq_self : ∀ ts : List RawHour, formatHourly ts = ts
  | [] => rfl
  | h :: rest => by rw [formatHourly, formatHourly_eq_self rest]

end Weather

/-- A concrete payload for the counterexample: five hourly entries, all
at or before `current_dt + 25` for `current_dt = 0`. -/
def fiveStaleHours : List RawHour :=
  [⟨0, []⟩, ⟨5, []⟩, ⟨10, []⟩, ⟨15, []⟩, ⟨20, []⟩]

/-- Counterexample to C1: `format_weather_data` in `modules/weather.py`
(one of the two functions the claim is about) applies neither the cap
nor the grace window: on a payload of five entries all at or before
`current.timestamp + 25` minutes it emits all five. -/
theorem claim_C1_counterexample :
    (Weather.formatHourly fiveStaleHours).length = 5 ∧
    ∀ h ∈ Weather.formatHourly fiveStaleHours, ¬ ((0:ℤ) + 25 < h.time) := by
  constructor
  · rfl
  · intro h hm
    rw [Weather.formatHourly_eq_self] at hm
    fin_cases hm <;> decide

/-- C1 (amended): the hourly normalization of `modules/air_quality.py`
emits at most 4 entries, each strictly after `current_dt + 25` minutes,
in provider order; skipped entries do not count against the cap, so the
output is exactly the first 4 entries of the windowed subsequence. -/
theorem claim_C1_hourly_window (current_dt : ℤ) (ts : List RawHour) :
    (AirQuality.formatHourly current_dt ts 0).length ≤ 4 ∧
    (∀ h ∈ AirQuality.formatHourly current_dt ts 0, current_dt + 25 < h.time) ∧
    (AirQuality.formatHourly current_dt ts 0).Sublist ts ∧
    AirQuality.formatHourly current_dt ts 0 =
      (ts.filter fun h => decide (current_dt + 25 < h.time)).take 4 := by
  have he := AirQuality.formatHourly_eq_take_filter current_dt ts 0
  refine ⟨?_, ?_, ?_, he⟩
  · rw [he]
    exact le_trans (List.length_take_le _ _) (by norm_num)
  · intro h hm
    rw [he] at hm
    have hf := List.mem_of_mem_take hm
    have := List.of_mem_filter hf
    exact of_decide_eq_true this
  · rw [he]
    exact (List.take_sublist _ _).trans (List.filter_sublist _)

/-- Witness for C1 (amended): the cap conjunct applied to a concrete
six-entry payload with `current_dt = 0`. -/
theorem claim_C1_hourly_window_witness :
    (AirQuality.formatHourly 0
      [⟨10, []⟩, ⟨30, []⟩, ⟨40, []⟩, ⟨50, []⟩, ⟨60, []⟩, ⟨70, []⟩] 0).length ≤ 4 :=
  (claim_C1_hourly_window 0 _).1

namespace LocationCoordinates

/-- The request-parameter dict built in `get_location_data`
(modules/location_coordinates.py): the location descriptor keys the
cache logic reads. Key absence in the Python dict is `Option.none`. -/
structure GeoParams where
  postalcode : Option String
  city : Option String
  country : Option String
  deriving Repr, DecidableEq

/-- One geocoding result object (`lat`, `lon`, `display_name`, as
returned by the provider). -/
structure LocationResult where
  lat : String
  lon : String
  display_name : String
  deriving Repr, DecidableEq

/-- `create_cache_key` (modules/location_coordinates.py lines 44-58):
`country = params.get('country', '')`; the locality is `postalcode` if
that key is present, else `city`; neither present raises `ValueError`. -/
def create_cache_key (params : GeoParams) : Except PyError String :=
  let country := params.country.getD ""
  match params.postalcode with
  | some loc => .ok (country ++ "_" ++ loc)
  | none =>
    match params.city with
    | some loc => .ok (country ++ "_" ++ loc)
    | none => .error (.valueError "Cache key requires either postalcode or city")

/-- The observable outcome of one `get_location_data` call: the returned
value (or raised exception), whether a network request was issued, and
the cache contents afterwards. -/
structure GeoOutcome where
  result : Except PyError (Option LocationResult)
  network_used : Bool
  cacheAfter : List (String × List LocationResult)
  deriving Repr, DecidableEq

/-- `get_location_data` (modules/location_coordinates.py lines 60-102).
The loaded cache file is passed in as an association list, and the
outcome of the (single possible) HTTP request as `fetchResult`:
`.error` for a raised `requests` or JSON exception, `.ok` for the
parsed result array. Cache hit returns `cache[cache_key][0]` with no
request; a miss with an empty array logs a warning and returns `None`;
a miss with data stores the array under the key (write-through) and
returns its first element. -/
def get_location_data (params : GeoParams)
    (cache : List (String × List LocationResult))
    (fetchResult : Except PyError (List LocationResult)) : GeoOutcome :=
  match create_cache_key params with
  | .error e => ⟨.error e, false, cache⟩
  | .ok key =>
    match cache.lookup key with
    | some results =>
      match results.head? with
      | some r => ⟨.ok (some r), false, cache⟩
      | none => ⟨.error .indexError, false, cache⟩
    | none =>
      match fetchResult with
      | .error e => ⟨.error e, true, cache⟩
      | .ok [] => ⟨.ok none, true, cache⟩
      | .ok (r :: rest) => ⟨.ok (some r), true, cache ++ [(key, r :: rest)]⟩

/-- Appending a fresh binding is found by `lookup` when the key was
previously absent. -/
theorem lookup_append_of_none {β : Type} (key : String) (v : β) :
    ∀ (l : List (String × β)), l.lookup key = none →
      (l ++ [(key, v)]).lookup key = some v
  | [], _ => by simp [List.lookup]
  | (k, w) :: rest, h => by
    rw [List.cons_append, List.lookup_cons]
    rw [List.lookup_cons] at h
    by_cases hk : key = k
    · rw [beq_iff_eq.mpr hk] at h
      simp at h
    · rw [beq_eq_false_iff_ne.mpr hk] at h ⊢
      exact lookup_append_of_none key v rest h

end LocationCoordinates

/-- The query of end-to-end scenario C:
`{postal_code: "80204", country: "US"}`. -/
def params80204 : LocationCoordinates.GeoParams :=
  ⟨some "80204", none, some "US"⟩

/-- Counterexample to C2: on a cache miss where the provider returns an
empty result array, `get_location_data` returns Python `None` (no
exception of any kind is raised) — it does not raise `NotFoundError`.
Shown at the claim's own input `{postal_code: "80204", country: "US"}`. -/
theorem claim_C2_counterexample :
    (LocationCoordinates.get_location_data params80204 [] (.ok [])).result =
      .ok none := by
  decide

/-- C2 (amended): for every location query whose geocoding request
returns an empty result set on a cache miss, `get_location_data`
returns `None` without raising and without updating the cache (the
network request was issued). -/
theorem claim_C2_empty_geocoding (params : LocationCoordinates.GeoParams)
    (cache : List (String × List LocationCoordinates.LocationResult))
    (key : String)
    (hkey : LocationCoordinates.create_cache_key params = .ok key)
    (hmiss : cache.lookup key = none) :
    LocationCoordinates.get_location_data params cache (.ok []) =
      ⟨.ok none, true, cache⟩ := by
  simp only [LocationCoordinates.get_location_data, hkey, hmiss]

/-- Witness for C2 (amended): applied at the scenario-C query with an
empty cache. -/
theorem claim_C2_empty_geocoding_witness :
    LocationCoordinates.get_location_data params80204 [] (.ok []) =
      ⟨.ok none, true, []⟩ :=
  claim_C2_empty_geocoding params80204 [] "US_80204" (by decide) (by decide)

/-- A concrete geocoding result used to exercise the cache round trip. -/
def denverResult : LocationCoordinates.LocationResult :=
  ⟨"39.74", "-104.99", "Denver, Denver County, Colorado, United States"⟩

/-- C5: cache-key derivation is a pure function of `(country, locality)`
with locality = postal code if present else city, equal to
`country + "_" + locality`; it raises `ValueError` when neither postal
code nor city is supplied; and after a first resolve stored the result,
a second call with the same descriptor returns the stored result with
zero network requests and an unchanged cache. -/
theorem claim_C5_cache_key :
    (∀ (p : LocationCoordinates.GeoParams) (loc : String),
      p.postalcode = some loc →
      LocationCoordinates.create_cache_key p =
        .ok (p.country.getD "" ++ "_" ++ loc)) ∧
    (∀ (p : LocationCoordinates.GeoParams) (loc : String),
      p.postalcode = none → p.city = some loc →
      LocationCoordinates.create_cache_key p =
        .ok (p.country.getD "" ++ "_" ++ loc)) ∧
    (∀ p : LocationCoordinates.GeoParams,
      p.postalcode = none → p.city = none →
      LocationCoordinates.create_cache_key p =
        .error (.valueError "Cache key requires either postalcode or city")) ∧
    (∀ p q : LocationCoordinates.GeoParams, p = q →
      LocationCoordinates.create_cache_key p =
        LocationCoordinates.create_cache_key q) ∧
    (∀ (p : LocationCoordinates.GeoParams)
      (cache : List (String × List LocationCoordinates.LocationResult))
      (key : String) (r : LocationCoordinates.LocationResult)
      (rest : List LocationCoordinates.LocationResult)
      (fetch2 : Except PyError (List LocationCoordinates.LocationResult)),
      LocationCoordinates.create_cache_key p = .ok key →
      cache.lookup key = none →
      LocationCoordinates.get_location_data p cache (.ok (r :: rest)) =
        ⟨.ok (some r), true, cache ++ [(key, r :: rest)]⟩ ∧
      LocationCoordinates.get_location_data p
          (cache ++ [(key, r :: rest)]) fetch2 =
        ⟨.ok (some r), false, cache ++ [(key, r :: rest)]⟩) := by
  refine ⟨?_, ?_, ?_, ?_, ?_⟩
  · intro p loc hp
    simp only [LocationCoordinates.create_cache_key, hp]
  · intro p loc hp hc
    simp only [LocationCoordinates.create_cache_key, hp, hc]
  · intro p hp hc
    simp only [LocationCoordinates.create_cache_key, hp, hc]
  · intro p q hpq
    rw [hpq]
  · intro p cache key r rest fetch2 hkey hmiss
    constructor
    · simp only [LocationCoordinates.get_location_data, hkey, hmiss]
    · simp only [LocationCoordinates.get_location_data, hkey,
        LocationCoordinates.lookup_append_of_none key (r :: rest) cache hmiss,
        List.head?]

/-- Witness for C5: a first resolve of the `80204`/`US` descriptor on an
empty cache stores the provider array, and the second resolve returns
the same result with no network request. -/
theorem claim_C5_cache_key_witness :
    LocationCoordinates.get_location_data params80204 [] (.ok [denverResult]) =
      ⟨.ok (some denverResult), true, [("US_80204", [denverResult])]⟩ ∧
    LocationCoordinates.get_location_data params80204
        [("US_80204", [denverResult])] (.ok []) =
      ⟨.ok (some denverResult), false, [("US_80204", [denverResult])]⟩ :=
  (claim_C5_cache_key.2.2.2.2 params80204 [] "US_80204" denverResult [] (.ok [])
    (by decide) (by decide))

/-- The pollen summary dict built by `_process_pollen_data`. -/
structure PollenData where
  tree : ℚ
  grass : ℚ
  ragweed : ℚ
  deriving Repr, DecidableEq

/-- Python `x or d` on a number: a falsy (zero) value picks the default. -/
def pyOrQ (x d : ℚ) : ℚ := if x = 0 then d else x

/-- `x or d` is nonzero whenever the default is. -/
theorem pyOrQ_ne_zero {x d : ℚ} (hd : d ≠ 0) : pyOrQ x d ≠ 0 := by
  unfold pyOrQ
  split
  · exact hd
  · assumption

namespace WeatherAPI

/-- `WeatherAPI._process_pollen_data` (hello_mock.py lines 166-178).
The air-quality `hourly` dict is an association list from series name to
the hourly value array; a missing series falls back to `[0] * 24`; the
value at `current_hour` feeds Python `or` with the per-key default.
Indexing past the end of a present-but-short series raises `IndexError`,
modelled as `none`. -/
def process_pollen_data (hourly_pollen : List (String × List ℚ))
    (current_hour : ℕ) : Option PollenData :=
  if hourly_pollen.isEmpty then some ⟨2, 5, 1⟩
  else
    match ((hourly_pollen.lookup "alder_pollen").getD
            (List.replicate 24 0)).get? current_hour,
          ((hourly_pollen.lookup "grass_pollen").getD
            (List.replicate 24 0)).get? current_hour,
          ((hourly_pollen.lookup "ragweed_pollen").getD
            (List.replicate 24 0)).get? current_hour with
    | some t, some g, some r => some ⟨pyOrQ t 2, pyOrQ g 5, pyOrQ r 1⟩
    | _, _, _ => none

end WeatherAPI

/-- C10: pollen defaults are substituted per key: on any non-empty
payload for which the lookup returns, a key whose series is missing or
whose value at the current hour is zero comes back as its default
(tree 2, grass 5, ragweed 1), and every returned level is nonzero. -/
theorem claim_C10_pollen_defaults
    (hp : List (String × List ℚ)) (ch : ℕ) (out : PollenData)
    (hret : WeatherAPI.process_pollen_data hp ch = some out) :
    ((hp.lookup "alder_pollen" = none ∧ ch < 24) → out.tree = 2) ∧
    (∀ l, hp.lookup "alder_pollen" = some l → l.get? ch = some 0 →
      out.tree = 2) ∧
    ((hp.lookup "grass_pollen" = none ∧ ch < 24) → out.grass = 5) ∧
    (∀ l, hp.lookup "grass_pollen" = some l → l.get? ch = some 0 →
      out.grass = 5) ∧
    ((hp.lookup "ragweed_pollen" = none ∧ ch < 24) → out.ragweed = 1) ∧
    (∀ l, hp.lookup "ragweed_pollen" = some l → l.get? ch = some 0 →
      out.ragweed = 1) ∧
    out.tree ≠ 0 ∧ out.grass ≠ 0 ∧ out.ragweed ≠ 0 := by
  unfold WeatherAPI.process_pollen_data at hret
  by_cases hemp : hp.isEmpty
  · rw [if_pos hemp] at hret
    obtain rfl : (⟨2, 5, 1⟩ : PollenData) = out := Option.some_injective _ hret
    refine ⟨fun _ => rfl, ?_, fun _ => rfl, ?_, fun _ => rfl, ?_, ?_, ?_, ?_⟩ <;>
      first
        | (intro l hl _
           rw [List.lookup_eq_none_iff.mpr (by simp_all [List.isEmpty_iff])] at hl)
        | norm_num
  · rw [if_neg hemp] at hret
    rcases hta : ((hp.lookup "alder_pollen").getD
        (List.replicate 24 0)).get? ch with _ | t <;> rw [hta] at hret
    · exact Option.noConfusion hret
    rcases htg : ((hp.lookup "grass_pollen").getD
        (List.replicate 24 0)).get? ch with _ | g <;> rw [htg] at hret
    · exact Option.noConfusion hret
    rcases htr : ((hp.lookup "ragweed_pollen").getD
        (List.replicate 24 0)).get? ch with _ | r <;> rw [htr] at hret
    · exact Option.noConfusion hret
    obtain rfl : (⟨pyOrQ t 2, pyOrQ g 5, pyOrQ r 1⟩ : PollenData) = out :=
      Option.some_injective _ hret
    refine ⟨?_, ?_, ?_, ?_, ?_, ?_, ?_, ?_, ?_⟩
    · rintro ⟨hnone, hch⟩
      rw [hnone] at hta
      simp only [Option.getD_none, List.get?_eq_getElem?,
        List.getElem?_replicate, if_pos hch] at hta
      obtain rfl : (0 : ℚ) = t := Option.some_injective _ hta
      simp [pyOrQ]
    · intro l hl hzero
      rw [hl] at hta
      simp only [Option.getD_some] at hta
      rw [hzero] at hta
      obtain rfl : (0 : ℚ) = t := Option.some_injective _ hta
      simp [pyOrQ]
    · rintro ⟨hnone, hch⟩
      rw [hnone] at htg
      simp only [Option.getD_none, List.get?_eq_getElem?,
        List.getElem?_replicate, if_pos hch] at htg
      obtain rfl : (0 : ℚ) = g := Option.some_injective _ htg
      simp [pyOrQ]
    · intro l hl hzero
      rw [hl] at htg
      simp only [Option.getD_some] at htg
      rw [hzero] at htg
      obtain rfl : (0 : ℚ) = g := Option.some_injective _ htg
      simp [pyOrQ]
    · rintro ⟨hnone, hch⟩
      rw [hnone] at htr
      simp only [Option.getD_none, List.get?_eq_getElem?,
        List.getElem?_replicate, if_pos hch] at htr
      obtain rfl : (0 : ℚ) = r := Option.some_injective _ htr
      simp [pyOrQ]
    · intro l hl hzero
      rw [hl] at htr
      simp only [Option.getD_some] at htr
      rw [hzero] at htr
      obtain rfl : (0 : ℚ) = r := Option.some_injective _ htr
      simp [pyOrQ]
    · exact pyOrQ_ne_zero (by norm_num)
    · exact pyOrQ_ne_zero (by norm_num)
    · exact pyOrQ_ne_zero (by norm_num)

/-- Witness for C10: a payload with only an alder series whose value at
hour 1 is zero; the call returns all three defaults, shown through the
theorem's missing-series and zero-value conjuncts. -/
theorem claim_C10_pollen_defaults_witness :
    WeatherAPI.process_pollen_data [("alder_pollen", [7, 0, 3])] 1 =
      some ⟨2, 5, 1⟩ ∧
    (⟨2, 5, 1⟩ : PollenData).tree = 2 ∧ (⟨2, 5, 1⟩ : PollenData).grass = 5 := by
  have h := claim_C10_pollen_defaults [("alder_pollen", [7, 0, 3])] 1 ⟨2, 5, 1⟩
    (by decide)
  exact ⟨by decide, h.2.1 [7, 0, 3] (by decide) (by decide),
    h.2.2.1 ⟨by decide, by decide⟩⟩

/-- One entry of `hourly_forecast` as built by hello_mock.py. The
formatted `"%Y-%m-%dT%H:00"` string is modelled by the instant itself
(seconds since an arbitrary epoch). -/
structure HourlyEntry where
  time : ℤ
  temperature : ℚ
  weather_code : ℤ
  precipitation_probability : ℚ
  uv_index : ℚ
  deriving Repr, DecidableEq

/-- One entry of `daily_forecast` as built by hello_mock.py; the
formatted `"%Y-%m-%d"` date string is modelled as a day number. -/
structure DailyEntry where
  date : ℤ
  temp_max : ℚ
  temp_min : ℚ
  weather_code : ℤ
  precipitation_probability : ℚ
  deriving Repr, DecidableEq

/-- The `WeatherData` dataclass (hello_mock.py lines 38-52);
`datetime_str` (a strftime of the build instant) is modelled by the
instant itself. -/
structure WeatherData where
  current_temp : ℚ
  condition : String
  condition_icon : String
  location : String
  datetime_str : ℤ
  wind_speed : ℚ
  wind_direction : String
  uv_index : ℚ
  air_quality : ℤ
  hourly_forecast : List HourlyEntry
  daily_forecast : List DailyEntry
  pollen_data : PollenData
  deriving Repr, DecidableEq

namespace WeatherAPI

/-- `base_temps` (hello_mock.py line 187). -/
def base_temps : List ℚ :=
  [76, 75, 73, 70, 68, 65, 63, 61, 59, 58, 60, 65,
   70, 75, 78, 79, 77, 75, 72, 70, 68, 66, 64, 62]

/-- `rain_chances` (hello_mock.py line 188). -/
def rain_chances : List ℚ :=
  [15, 30, 35, 25, 20, 10, 5, 5, 5, 10, 15, 20,
   25, 30, 25, 20, 15, 10, 8, 5, 3, 5, 8, 12]

/-- The demo `weather_codes` array (hello_mock.py line 189). -/
def demo_hourly_codes : List ℤ :=
  [2, 2, 3, 3, 1, 1, 0, 0, 0, 1, 2, 2, 2, 3, 3, 2, 2, 2, 1, 1, 0, 0, 1, 1]

/-- `WeatherAPI._get_demo_weather_data` (hello_mock.py lines 180-239),
parameterized by the call instant `now` in epoch seconds:
`datetime.now().hour` is `now / 3600 % 24`, adding `timedelta(hours=i)`
adds `3600 * i`, and adding `timedelta(days=k)` lands on day
`(now + 86400 * k) / 86400`. -/
def get_demo_weather_data (now : ℤ) : WeatherData :=
  { current_temp := 72,
    condition := "Partly Cloudy",
    condition_icon := "P.CLD",
    location := "Denver, CO",
    datetime_str := now,
    wind_speed := 12,
    wind_direction := "SW",
    uv_index := 6,
    air_quality := 25,
    hourly_forecast := (List.range 24).map fun (i : ℕ) =>
      { time := now + 3600 * (i : ℤ),
        temperature := base_temps.getD i 0,
        weather_code := demo_hourly_codes.getD i 0,
        precipitation_probability := rain_chances.getD i 0,
        uv_index :=
          if 6 ≤ (now / 3600 % 24 + (i : ℤ)) % 24 ∧
             (now / 3600 % 24 + (i : ℤ)) % 24 ≤ 18
          then max 0 (8 - |(i : ℚ) - 12| * (4/5)) else 0 },
    daily_forecast :=
      [⟨(now + 86400) / 86400, 79, 55, 0, 10⟩,
       ⟨(now + 2 * 86400) / 86400, 75, 52, 63, 65⟩,
       ⟨(now + 3 * 86400) / 86400, 71, 49, 2, 30⟩],
    pollen_data := ⟨2, 5, 1⟩ }

/-- `WeatherAPI.fetch_weather_data` (hello_mock.py lines 73-76): logs
and returns the demo data. The second component is the list of HTTP
requests the call issues — none. -/
def fetch_weather_data (now : ℤ) : WeatherData × List String :=
  (get_demo_weather_data now, [])

end WeatherAPI

/-- C9: `fetch_weather_data` performs no network request and always
returns the fixed built-in demo data (current_temp 72.0, condition
"Partly Cloudy", location "Denver, CO", pollen tree 2 / grass 5 /
ragweed 1); two calls at the same clock instant return equal results. -/
theorem claim_C9_fetch_weather_is_demo :
    (∀ now : ℤ, WeatherAPI.fetch_weather_data now =
      (WeatherAPI.get_demo_weather_data now, [])) ∧
    (∀ now : ℤ, (WeatherAPI.fetch_weather_data now).2 = []) ∧
    (∀ now : ℤ,
      (WeatherAPI.fetch_weather_data now).1.current_temp = 72 ∧
      (WeatherAPI.fetch_weather_data now).1.condition = "Partly Cloudy" ∧
      (WeatherAPI.fetch_weather_data now).1.location = "Denver, CO" ∧
      (WeatherAPI.fetch_weather_data now).1.pollen_data = ⟨2, 5, 1⟩) ∧
    (∀ now₁ now₂ : ℤ, now₁ = now₂ →
      WeatherAPI.fetch_weather_data now₁ = WeatherAPI.fetch_weather_data now₂) := by
  refine ⟨fun _ => rfl, fun _ => rfl, fun _ => ⟨rfl, rfl, rfl, rfl⟩, ?_⟩
  intro now₁ now₂ h
  rw [h]

/-- Witness for C9: the determinism conjunct applied at instant 0. -/
theorem claim_C9_fetch_weather_is_demo_witness :
    WeatherAPI.fetch_weather_data 0 = WeatherAPI.fetch_weather_data 0 :=
  claim_C9_fetch_weather_is_demo.2.2.2 0 0 rfl

/-- The `EventData` dataclass (hello_mock.py lines 54-63). -/
structure EventData where
  time : String
  title : String
  location : String
  weather_temp : ℚ
  weather_icon : String
  rain_chance : ℤ
  is_outdoor : Bool
  deriving Repr, DecidableEq

namespace CalendarManager

/-- The demo events of `CalendarManager.fetch_events`
(hello_mock.py lines 251-288), already shaped by
`_create_demo_event_data`. -/
def demo_events : List EventData :=
  [⟨"3:00 PM", "Team Meeting", "Conference Room B", 76, "P.CLD", 15, false⟩,
   ⟨"5:30 PM", "Grocery Shopping", "King Soopers", 75, "SUN", 30, false⟩,
   ⟨"7:00 PM", "Dinner w/ Sarah", "Outdoor Patio", 73, "CLOUD", 35, true⟩,
   ⟨"8:30 PM", "Evening Walk", "City Park", 70, "P.CLD", 25, true⟩]

/-- `CalendarManager.fetch_events` (hello_mock.py line 290):
`demo_events[:max_events_today]`. -/
def fetch_events (max_events_today : ℕ) : List EventData :=
  demo_events.take max_events_today

end CalendarManager

namespace SmartDisplayManager

/-- The weather-cache fields of `SmartDisplayManager`
(hello_mock.py lines 499-500): `weather_cache` and
`last_weather_update` (an instant in epoch seconds, or `None`). -/
structure ManagerState where
  weather_cache : Option WeatherData
  last_weather_update : Option ℤ
  deriving Repr, DecidableEq

/-- The refetch test of `update_display` (hello_mock.py lines 554-555):
`last_weather_update is None or now - last_weather_update >
timedelta(seconds=weather_api_interval)`. -/
def needsWeatherRefetch (last : Option ℤ) (now interval : ℤ) : Bool :=
  match last with
  | none => true
  | some t => decide (interval < now - t)

/-- The complementary branch (hello_mock.py line 561): the cached
payload is reused exactly when no refetch is needed. -/
def usesCachedWeather (last : Option ℤ) (now interval : ℤ) : Bool :=
  !needsWeatherRefetch last now interval

/-- The rendered bitmap, opaque at this boundary. -/
inductive RenderedImage where
  | mk
  deriving Repr, DecidableEq

/-- The external effects `update_display` invokes: the renderer (passed
`self.weather_cache`, possibly `None`, and the events) and
`image.save`; either may raise. -/
structure UpdateEnv where
  render : Option WeatherData → List EventData → Except PyError RenderedImage
  saveImage : RenderedImage → String → Except PyError Unit

/-- The `try` body of `SmartDisplayManager.update_display`
(hello_mock.py lines 550-578): refetch or reuse the weather cache,
fetch the demo events, render, and save the image twice; the first
raised exception aborts the body. Returns the outcome and the state
after the run (the cache update survives a later failure). -/
def update_display_body (interval : ℤ) (st : ManagerState) (now : ℤ)
    (env : UpdateEnv) : Except PyError Unit × ManagerState :=
  let st' :=
    if needsWeatherRefetch st.last_weather_update now interval then
      ⟨some (WeatherAPI.fetch_weather_data now).1, some now⟩
    else st
  let events := CalendarManager.fetch_events 4
  match env.render st'.weather_cache events with
  | .error e => (.error e, st')
  | .ok img =>
    match env.saveImage img ("display_full_" ++ toString now ++ ".png") with
    | .error e => (.error e, st')
    | .ok _ =>
      match env.saveImage img "display_output.png" with
      | .error e => (.error e, st')
      | .ok _ => (.ok (), st')

/-- `SmartDisplayManager.update_display` (hello_mock.py lines 547-582):
the body runs under `try`; `except Exception` logs the error and then
re-raises the same exception (`raise`, line 582). -/
def update_display (interval : ℤ) (st : ManagerState) (now : ℤ)
    (env : UpdateEnv) : Except PyError Unit × ManagerState :=
  match update_display_body interval st now env with
  | (.error e, st') => (.error e, st')
  | (.ok u, st') => (.ok u, st')

/-- The `except`-and-`raise` wrapper is observationally the body: no
exception is swallowed and no fallback value is substituted. -/
theorem update_display_eq_body (interval : ℤ) (st : ManagerState)
    (now : ℤ) (env : UpdateEnv) :
    update_display interval st now env = update_display_body interval st now env := by
  unfold update_display
  rcases update_display_body interval st now env with ⟨r, st'⟩
  cases r <;> rfl

end SmartDisplayManager

/-- Counterexample to C4: with the code's freshness test, an entry
stored at `T = 0` with `ttl = 900` is still reused at `now = T + ttl`
(age exactly `ttl`), although `now - stored_at < ttl` fails — freshness
is `age ≤ ttl`, not `age < ttl`. -/
theorem claim_C4_counterexample :
    SmartDisplayManager.usesCachedWeather (some 0) 900 900 = true ∧
    ¬ ((900 : ℤ) - 0 < 900) := by
  constructor
  · decide
  · decide

/-- C4 (amended): a cache entry stored at `T` is reused exactly when
`now - T ≤ ttl`: it is fresh at `T + ttl - 1`, stale at `T + ttl + 1`,
and stale for every age strictly beyond the ttl; an absent entry is
never fresh. -/
theorem claim_C4_freshness (T now ttl : ℤ) :
    (SmartDisplayManager.usesCachedWeather (some T) now ttl = true ↔
      now - T ≤ ttl) ∧
    SmartDisplayManager.usesCachedWeather (some T) (T + ttl - 1) ttl = true ∧
    SmartDisplayManager.usesCachedWeather (some T) (T + ttl + 1) ttl = false ∧
    (∀ age : ℤ, ttl < age →
      SmartDisplayManager.usesCachedWeather (some T) (T + age) ttl = false) ∧
    SmartDisplayManager.usesCachedWeather none now ttl = false := by
  refine ⟨?_, ?_, ?_, ?_, rfl⟩
  · simp [SmartDisplayManager.usesCachedWeather,
      SmartDisplayManager.needsWeatherRefetch]
  · simp only [SmartDisplayManager.usesCachedWeather,
      SmartDisplayManager.needsWeatherRefetch, Bool.not_eq_true']
    rw [decide_eq_false_iff_not]
    omega
  · simp only [SmartDisplayManager.usesCachedWeather,
      SmartDisplayManager.needsWeatherRefetch, Bool.not_eq_false']
    rw [decide_eq_true_eq]
    omega
  · intro age hage
    simp only [SmartDisplayManager.usesCachedWeather,
      SmartDisplayManager.needsWeatherRefetch, Bool.not_eq_false']
    rw [decide_eq_true_eq]
    omega

/-- Witness for C4 (amended): stored at `T = 0`, `ttl = 900`: fresh one
second before expiry and stale at age 901 through the strict-past
conjunct. -/
theorem claim_C4_freshness_witness :
    SmartDisplayManager.usesCachedWeather (some 0) (0 + 900 - 1) 900 = true ∧
    SmartDisplayManager.usesCachedWeather (some 0) (0 + 901) 900 = false :=
  ⟨(claim_C4_freshness 0 0 900).2.1,
   (claim_C4_freshness 0 0 900).2.2.2.1 901 (by decide)⟩

/-- An environment whose renderer succeeds but whose `image.save`
raises `IOError` (e.g. a full or read-only disk). -/
def saveFailEnv : SmartDisplayManager.UpdateEnv :=
  ⟨fun _ _ => .ok SmartDisplayManager.RenderedImage.mk,
   fun _ _ => .error .ioError⟩

/-- An environment whose renderer itself raises. -/
def renderFailEnv : SmartDisplayManager.UpdateEnv :=
  ⟨fun _ _ => .error (.valueError "render failed"), fun _ _ => .ok ()⟩

/-- Counterexample to C3: when saving the rendered image raises,
`update_display` re-raises the exception to its caller (the scheduler)
instead of returning a fallback dataset — no `degraded` marker exists
anywhere in its result. -/
theorem claim_C3_counterexample :
    (SmartDisplayManager.update_display 900 ⟨none, none⟩ 0 saveFailEnv).1 =
      .error PyError.ioError := by
  rfl

/-- C3 (amended): `update_display` catches any exception from its body
only to log it and re-raise: every body failure propagates unchanged to
the caller, and the whole call is observationally the body (no fallback
result, no degraded flag is ever substituted). -/
theorem claim_C3_update_display_propagates :
    (∀ (interval : ℤ) (st : SmartDisplayManager.ManagerState) (now : ℤ)
      (env : SmartDisplayManager.UpdateEnv) (e : PyError),
      (SmartDisplayManager.update_display_body interval st now env).1 = .error e →
      (SmartDisplayManager.update_display interval st now env).1 = .error e) ∧
    (∀ (interval : ℤ) (st : SmartDisplayManager.ManagerState) (now : ℤ)
      (env : SmartDisplayManager.UpdateEnv),
      SmartDisplayManager.update_display interval st now env =
        SmartDisplayManager.update_display_body interval st now env) := by
  constructor
  · intro interval st now env e h
    rw [SmartDisplayManager.update_display_eq_body]
    exact h
  · intro interval st now env
    exact SmartDisplayManager.update_display_eq_body interval st now env

/-- Witness for C3 (amended): the propagation conjunct applied to a
failing renderer at a concrete state and instant. -/
theorem claim_C3_update_display_propagates_witness :
    (SmartDisplayManager.update_display 900 ⟨none, none⟩ 0 renderFailEnv).1 =
      .error (.valueError "render failed") :=
  claim_C3_update_display_propagates.1 900 ⟨none, none⟩ 0 renderFailEnv
    (.valueError "render failed") rfl

namespace AirQuality

/-- The global names defined or imported at module scope in
`modules/air_quality.py` (lines 1-19 and the three `def`s). -/
def moduleGlobals : List String :=
  ["json", "requests", "logging", "os", "sys", "pytz",
   "datetime", "timezone", "timedelta", "Path", "config",
   "get_location_data", "OPEN_METEO_URL", "logger",
   "save_air_quality_cache", "get_air_quality_data",
   "format_weather_data", "main"]

/-- The local names bound inside `get_air_quality_data` before line 72
executes (`location_data`, `lat`, `lon`, `air_quality_params`,
`response`, `weather_data`). -/
def getAirQualityLocalNames : List String :=
  ["location_data", "lat", "lon", "air_quality_params",
   "response", "weather_data"]

/-- Python name resolution for an expression inside
`get_air_quality_data`: locals, then module globals. -/
def resolvesName (n : String) : Bool :=
  getAirQualityLocalNames.contains n || moduleGlobals.contains n

/-- The names referenced, in evaluation order, by the statements of
`get_air_quality_data` after a successful parse (air_quality.py lines
71-80): the location-info assignments, the `save_weather_cache` call,
the log, and the `return`. -/
def successPathNames : List String :=
  ["weather_data", "location_data",
   "weather_data", "weather_params",
   "weather_data", "weather_params",
   "weather_data", "weather_params",
   "save_weather_cache", "weather_data",
   "logger",
   "weather_data"]

/-- The first name on the success path that fails to resolve, raising
`NameError` there. -/
def firstUnresolvedName : Option String :=
  successPathNames.find? fun n => !resolvesName n

/-- Python truthiness of an optional string (the `lat`/`lon` values of
the geocoding dict): absent and empty are falsy. -/
def pyTruthy (s : Option String) : Bool :=
  match s with
  | none => false
  | some v => !(v == "")

/-- The coordinate keys `get_air_quality_data` reads from the location
dict. -/
structure LocDict where
  lat : Option String
  lon : Option String
  deriving Repr, DecidableEq

/-- `get_air_quality_data` (air_quality.py lines 32-87), with the HTTP
fetch-and-parse outcome passed in: the two coordinate guards raise
`ValueError`; a transport or JSON error is caught, logged and
re-raised; on success the statements of lines 71-80 run in order and
the first unresolvable name raises `NameError`. -/
def get_air_quality_data (α : Type) (loc : LocDict)
    (fetchResult : Except PyError α) : Except PyError α :=
  if (!pyTruthy loc.lat) && pyTruthy loc.lon then
    .error (.valueError "Could not get location coordinates")
  else if !pyTruthy loc.lat || !pyTruthy loc.lon then
    .error (.valueError "Invalid coordinates received from geocoding")
  else
    match fetchResult with
    | .error e => .error e
    | .ok weather_data =>
      match firstUnresolvedName with
      | some n => .error (.nameError n)
      | none => .ok weather_data

/-- Line 72's `weather_params` is the first unresolvable name on the
success path. -/
theorem firstUnresolvedName_eq :
    firstUnresolvedName = some "weather_params" := rfl

end AirQuality

/-- C8: on every input whose air-quality HTTP request succeeds and
parses, `get_air_quality_data` raises `NameError` (at the undefined
`weather_params` of line 72) before returning, and no call whatsoever
can return a payload. -/
theorem claim_C8_air_quality_name_error :
    AirQuality.firstUnresolvedName = some "weather_params" ∧
    (∀ (α : Type) (loc : AirQuality.LocDict) (payload : α),
      AirQuality.pyTruthy loc.lat = true → AirQuality.pyTruthy loc.lon = true →
      AirQuality.get_air_quality_data α loc (.ok payload) =
        .error (.nameError "weather_params")) ∧
    (∀ (α : Type) (loc : AirQuality.LocDict) (r : Except PyError α)
      (payload : α),
      AirQuality.get_air_quality_data α loc r ≠ .ok payload) := by
  refine ⟨AirQuality.firstUnresolvedName_eq, ?_, ?_⟩
  · intro α loc payload hlat hlon
    simp [AirQuality.get_air_quality_data, hlat, hlon,
      AirQuality.firstUnresolvedName_eq]
  · intro α loc r payload h
    unfold AirQuality.get_air_quality_data at h
    split at h
    · exact Except.noConfusion h
    · split at h
      · exact Except.noConfusion h
      · split at h
        · exact Except.noConfusion h
        · rw [AirQuality.firstUnresolvedName_eq] at h
          exact Except.noConfusion h

/-- Witness for C8: a location dict with both coordinates present and a
successfully parsed payload still comes back as the `weather_params`
`NameError`. -/
theorem claim_C8_air_quality_name_error_witness :
    AirQuality.get_air_quality_data ℕ ⟨some "39.74", some "-104.99"⟩ (.ok 7) =
      .error (.nameError "weather_params") :=
  claim_C8_air_quality_name_error.2.1 ℕ ⟨some "39.74", some "-104.99"⟩ 7
    (by decide) (by decide)
